import Mathlib

/-!
Verification of the community voting backend (`src/app.py`) against its
natural-language specification.

The Python program is a Streamlit application over a PostgreSQL store.  The
logic relevant to the specification's claims is shallowly embedded here:

* the `votes` table (one row per cast ballot) and the upsert performed by
  `record_vote_to_db` (`INSERT ... ON CONFLICT (戶號, topic_id) DO UPDATE`);
* the precondition pipeline of `voter_page` (household-registry check, the
  `voting_open` flag, the `end_time` deadline with its silent parse-failure
  fallback, the active-topic check and the already-voted check);
* the per-topic tally block of `admin_dashboard` (lines 451-473);
* the CSV-upload functions `save_households_to_db` and `save_topics_to_db`,
  which write through pandas `DataFrame.to_sql(..., if_exists='replace')` —
  replace semantics drop the existing table and recreate it from the frame's
  columns only.

Timestamps are modelled as integers on one canonical clock; strings are kept
as the program stores them (decisions are the literal strings 同意 / 不同意).
-/

/-- One row of the `votes` table: 戶號 (`unit`), `topic_id`, 投票結果
(`result`), 投票時間 (`time`). -/
structure Ballot where
  unit : String
  topicId : Nat
  result : String
  time : Int
deriving DecidableEq, Repr

/-- The rows of the ledger holding the decision of household `u` on topic
`t` (the `UNIQUE (戶號, topic_id)` constraint says there is at most one). -/
def ballotsFor (votes : List Ballot) (u : String) (t : Nat) : List Ballot :=
  votes.filter (fun v => decide (v.unit = u ∧ v.topicId = t))

/-- `record_vote_to_db`: the storage-level write.  `INSERT ... ON CONFLICT
(戶號, topic_id) DO UPDATE SET 投票結果 = EXCLUDED.投票結果, 投票時間 =
EXCLUDED.投票時間` — if a row with the same key exists it is overwritten in
place (last-write-wins), otherwise the new row is inserted.  The whole
check-and-write is a single atomic statement at the storage layer. -/
def upsertVote (votes : List Ballot) (b : Ballot) : List Ballot :=
  if votes.any (fun v => decide (v.unit = b.unit ∧ v.topicId = b.topicId)) then
    votes.map (fun v =>
      if v.unit = b.unit ∧ v.topicId = b.topicId then
        { v with result := b.result, time := b.time }
      else v)
  else votes ++ [b]

/-- The uniqueness invariant of the `votes` table: at most one ballot per
(household, topic) pair. -/
def atMostOnePerPair (votes : List Ballot) : Prop :=
  ∀ u t, (ballotsFor votes u t).length ≤ 1

/-- One row of the `households` table: 戶號 (`code`) and 區分比例 (`share`,
kept as its uploaded text — its numeric value is never used by the logic the
claims are about). -/
structure Household where
  code : String
  share : String
deriving DecidableEq, Repr

/-- One row of the `topics` table.  `init_db_tables` declares `id SERIAL
PRIMARY KEY`, but `save_topics_to_db` recreates the table without the column
(see below), so the id of a stored row may be absent. -/
structure TopicRow where
  id : Option Nat
  text : String
  isActive : Bool
deriving DecidableEq, Repr

/-- The persistent state: the four tables created by `init_db_tables`.
`config` is a key-value table with `key` as primary key. -/
structure DB where
  households : List Household
  topics : List TopicRow
  votes : List Ballot
  config : List (String × String)
deriving DecidableEq, Repr

/-- `load_config`: `SELECT value FROM config WHERE key = :key`, `None` when
the key is absent (`key` is the primary key, so `find?` returns the unique
row if any). -/
def loadConfig (db : DB) (k : String) : Option String :=
  (db.config.find? (fun kv => decide (kv.1 = k))).map (fun kv => kv.2)

/-- An uploaded CSV as pandas sees it: a list of column names and the rows,
each row an association of column name to cell text. -/
structure DataFrame where
  columns : List String
  rows : List (List (String × String))
deriving DecidableEq, Repr

/-- Cell access `row[col]`. -/
def getCell (row : List (String × String)) (c : String) : Option String :=
  (row.find? (fun kv => decide (kv.1 = c))).map (fun kv => kv.2)

/-- `save_households_to_db`: returns `none` (Python `False`) unless BOTH
required columns 戶號 and 區分比例 are present; otherwise writes
`df[required_cols]` through `to_sql('households', if_exists='replace')`,
which drops the old table and stores exactly the uploaded rows. -/
def saveHouseholdsToDb (df : DataFrame) : Option (List Household) :=
  if "戶號" ∈ df.columns ∧ "區分比例" ∈ df.columns then
    some (df.rows.map (fun r =>
      ⟨(getCell r "戶號").getD "", (getCell r "區分比例").getD ""⟩))
  else none

/-- `save_topics_to_db`: returns `none` unless the 議題 column is present;
otherwise writes `df[['議題']]` plus a constant `is_active = True` column
through `to_sql('topics', if_exists='replace')`.  Replace semantics drop the
table created by `init_db_tables` and recreate it from the frame's columns
only — the frame has no `id` column, so the stored rows have no id. -/
def saveTopicsToDb (df : DataFrame) : Option (List TopicRow) :=
  if "議題" ∈ df.columns then
    some (df.rows.map (fun r => ⟨none, (getCell r "議題").getD "", true⟩))
  else none

/-- The household-upload path seen as a state update: on success the new
registry fully replaces the old one, every other table untouched. -/
def loadHouseholds (db : DB) (df : DataFrame) : Option DB :=
  (saveHouseholdsToDb df).map (fun hs => { db with households := hs })

/-- Digit-string value, `none` when empty or not all digits (the failure mode
of `datetime.strptime` on a malformed field). -/
def digitsVal (l : List Char) : Option Nat :=
  if l ≠ [] ∧ l.all Char.isDigit then
    some (l.foldl (fun a c => a * 10 + (c.toNat - 48)) 0)
  else none

/-- Split a character list at every occurrence of `c` (like
`str.split` on a single separator). -/
def splitOnChar (c : Char) (l : List Char) : List (List Char) :=
  match l with
  | [] => [[]]
  | a :: rest =>
    let r := splitOnChar c rest
    if a = c then [] :: r
    else
      match r with
      | [] => [[a]]
      | h :: t => (a :: h) :: t

/-- `datetime.strptime(s, "%Y-%m-%d %H:%M:%S %z")` followed by conversion to
an instant: accepts `YYYY-MM-DD HH:MM:SS ±ZZZZ` and returns a value on one
linear clock (the stored offset is subtracted, as `astimezone` normalises
aware datetimes to a common instant); `none` on any malformed input. -/
def parseTs (s : String) : Option Int :=
  match splitOnChar ' ' s.data with
  | [datePart, timePart, offPart] =>
    match splitOnChar '-' datePart, splitOnChar ':' timePart with
    | [ys, ms, ds], [hs, mis, ss] =>
      if ys.length = 4 ∧ ms.length = 2 ∧ ds.length = 2 ∧
          hs.length = 2 ∧ mis.length = 2 ∧ ss.length = 2 then
        match digitsVal ys, digitsVal ms, digitsVal ds,
            digitsVal hs, digitsVal mis, digitsVal ss with
        | some y, some mo, some d, some hh, some mi, some sec =>
          match offPart with
          | [] => none
          | sign :: offDigits =>
            if (sign = '+' ∨ sign = '-') ∧ offDigits.length = 4 then
              match digitsVal offDigits with
              | some off =>
                let offMin : Int := (off / 100 : Nat) * 60 + (off % 100 : Nat)
                let base : Int :=
                  ((((((y * 12 + mo) * 31 + d) * 24 + hh) * 60 + mi) * 60 + sec : Nat) : Int)
                some (base - (if sign = '+' then offMin else -offMin) * 60)
              | none => none
            else none
        | _, _, _, _, _, _ => none
      else none
    | _, _ => none
  | _ => none

/-- Outcome of one voting request, matching the messages `voter_page` shows. -/
inductive VoteOutcome where
  | noUnit
  | invalidHousehold
  | votingClosed
  | deadlineExpired
  | invalidTopic
  | alreadyVoted
  | accepted
deriving DecidableEq, Repr

/-- The `voter_page` pipeline for one submission, in source order: missing
unit parameter; registry check (`households_df.empty or unit not in ...`);
`voting_open` flag (`voting_open_str == 'True'`); deadline (`end_time`,
parse failure silently ignored by the bare `except: pass`); active-topic
check; already-voted check; then `record_vote_to_db` with the current time.
Only the `votes` table can be written, so the pair returned is the outcome
and the resulting `votes` table. -/
def castVote (db : DB) (now : Int) (unit : String) (topicId : Nat)
    (decision : String) : VoteOutcome × List Ballot :=
  if unit = "" then (VoteOutcome.noUnit, db.votes)
  else if db.households = [] ∨ ¬ (∃ h ∈ db.households, h.code = unit) then
    (VoteOutcome.invalidHousehold, db.votes)
  else if ¬ (loadConfig db "voting_open" = some "True") then
    (VoteOutcome.votingClosed, db.votes)
  else
    let deadlineHit : Bool :=
      match loadConfig db "end_time" with
      | some s =>
        match parseTs s with
        | some endT => decide (now > endT)
        | none => false
      | none => false
    if deadlineHit then (VoteOutcome.deadlineExpired, db.votes)
    else if ¬ (∃ t ∈ db.topics, t.isActive ∧ t.id = some topicId) then
      (VoteOutcome.invalidTopic, db.votes)
    else if ∃ v ∈ db.votes, v.unit = unit ∧ v.topicId = topicId then
      (VoteOutcome.alreadyVoted, db.votes)
    else
      (VoteOutcome.accepted, upsertVote db.votes ⟨unit, topicId, decision, now⟩)

/-- The per-topic result block of `admin_dashboard`. -/
structure TopicResult where
  votedHouseholds : Nat
  remaining : Int
  agree : Nat
  disagree : Nat
  totalVotes : Nat
  ratios : Option (ℚ × ℚ)
deriving DecidableEq, Repr

/-- `votes_df[votes_df['topic_id'] == topic_id]`. -/
def topicVotes (votes : List Ballot) (tid : Nat) : List Ballot :=
  votes.filter (fun v => decide (v.topicId = tid))

/-- `(topic_votes["投票結果"] == "同意").sum()`. -/
def agreeCount (votes : List Ballot) (tid : Nat) : Nat :=
  ((topicVotes votes tid).filter (fun v => decide (v.result = "同意"))).length

/-- `(topic_votes["投票結果"] == "不同意").sum()`. -/
def disagreeCount (votes : List Ballot) (tid : Nat) : Nat :=
  ((topicVotes votes tid).filter (fun v => decide (v.result = "不同意"))).length

/-- `topic_votes["戶號"].nunique()`. -/
def votedHouseholdCount (votes : List Ballot) (tid : Nat) : Nat :=
  ((topicVotes votes tid).map (fun v => v.unit)).dedup.length

/-- The tally block of `admin_dashboard` (lines 451-473) for one topic:
counts, `remaining = total_households - voted_households`, and the two
percentage ratios, which are computed only inside `if total_votes > 0:` —
with no votes the dashboard shows an informational message and no ratio. -/
def tallyTopic (votes : List Ballot) (totalHouseholds : Nat) (tid : Nat) :
    TopicResult :=
  let agree := agreeCount votes tid
  let disagree := disagreeCount votes tid
  let totalVotes := agree + disagree
  { votedHouseholds := votedHouseholdCount votes tid
    remaining := (totalHouseholds : Int) - (votedHouseholdCount votes tid : Int)
    agree := agree
    disagree := disagree
    totalVotes := totalVotes
    ratios :=
      if totalVotes > 0 then
        some ((agree : ℚ) / (totalVotes : ℚ) * 100,
              (disagree : ℚ) / (totalVotes : ℚ) * 100)
      else none }

/-- `db` with the `end_time` row removed from `config` — the state the
deadline-free flow would run against. -/
def eraseEndTime (db : DB) : DB :=
  { db with config := db.config.filter (fun kv => decide (kv.1 ≠ "end_time")) }

/-- Concrete database for the C8 witness: registered household "A", gate
open, deadline stored as 2020-01-01 00:00:00 +0800. -/
def pastDeadlineDb : DB :=
  ⟨[⟨"A", "1.0"⟩], [⟨some 1, "T", true⟩], [],
    [("voting_open", "True"), ("end_time", "2020-01-01 00:00:00 +0800")]⟩

/-- Concrete database for the C10 witness: valid household, gate open, and a
stored deadline value that is not a timestamp. -/
def badDeadlineDb : DB :=
  ⟨[⟨"A", "1.0"⟩], [⟨some 1, "T", true⟩], [],
    [("voting_open", "True"), ("end_time", "oops")]⟩

/-! ## Helper lemmas for the ballot-ledger invariant -/

lemma atMostOnePerPair_nil : atMostOnePerPair [] := by
  intro u t
  simp [ballotsFor]

lemma atMostOnePerPair_singleton (b : Ballot) : atMostOnePerPair [b] := by
  intro u t
  exact le_trans (List.length_filter_le _ _) (by simp)

/-- A map that does not change the value of the filtering predicate commutes
with the filter. -/
lemma filter_map_eq_map_filter_of_pred_eq {α : Type} (f : α → α) (p : α → Bool)
    (hp : ∀ v, p (f v) = p v) (l : List α) :
    (l.map f).filter p = (l.filter p).map f := by
  induction l with
  | nil => rfl
  | cons a l ih =>
    simp only [List.map_cons, List.filter_cons, hp a]
    by_cases h : p a = true
    · simp [h, ih]
    · simp [h, ih]

/-- A map that does not change the value of the filtering predicate does not
change the number of rows the filter keeps. -/
lemma length_filter_map_of_pred_eq {α : Type} (f : α → α) (p : α → Bool)
    (hp : ∀ v, p (f v) = p v) (l : List α) :
    ((l.map f).filter p).length = (l.filter p).length := by
  rw [filter_map_eq_map_filter_of_pred_eq f p hp l, List.length_map]

/-- The upsert's conflict-update function leaves the key-filtering predicate
unchanged on every row. -/
lemma upsert_update_pred_eq (b : Ballot) (v : Ballot) :
    (decide ((if v.unit = b.unit ∧ v.topicId = b.topicId then
        { v with result := b.result, time := b.time }
      else v).unit = b.unit ∧
      (if v.unit = b.unit ∧ v.topicId = b.topicId then
        { v with result := b.result, time := b.time }
      else v).topicId = b.topicId) : Bool) =
    decide (v.unit = b.unit ∧ v.topicId = b.topicId) := by
  by_cases hc : v.unit = b.unit ∧ v.topicId = b.topicId
  · rw [if_pos hc]
  · rw [if_neg hc]

/-- The conflict-update branch of the upsert rewrites `result`/`time` but
never the key fields, so the set of rows matching any key is unchanged in
number. -/
lemma length_ballotsFor_upsert_map (votes : List Ballot) (b : Ballot)
    (u : String) (t : Nat) :
    (ballotsFor (votes.map (fun v =>
      if v.unit = b.unit ∧ v.topicId = b.topicId then
        { v with result := b.result, time := b.time }
      else v)) u t).length = (ballotsFor votes u t).length := by
  apply length_filter_map_of_pred_eq
  intro v
  by_cases hc : v.unit = b.unit ∧ v.topicId = b.topicId
  · simp [hc]
  · simp [hc]

/-- When the conflict check finds no row for `b`'s key, the ledger holds no
row for that key at all. -/
lemma ballotsFor_eq_nil_of_not_any (votes : List Ballot) (b : Ballot)
    (hany : ¬ (votes.any
      (fun v => decide (v.unit = b.unit ∧ v.topicId = b.topicId)) = true)) :
    ballotsFor votes b.unit b.topicId = [] := by
  rw [ballotsFor, List.filter_eq_nil_iff]
  intro v hv
  simp only [decide_eq_true_eq]
  intro hvk
  exact hany (List.any_eq_true.mpr ⟨v, hv, by simp [hvk]⟩)

/-- The upsert preserves the uniqueness invariant. -/
lemma upsertVote_preserves (votes : List Ballot) (b : Ballot)
    (h : atMostOnePerPair votes) : atMostOnePerPair (upsertVote votes b) := by
  intro u t
  unfold upsertVote
  split
  · rw [length_ballotsFor_upsert_map]
    exact h u t
  · rename_i hany
    have hnone : ballotsFor votes b.unit b.topicId = [] :=
      ballotsFor_eq_nil_of_not_any votes b hany
    rw [ballotsFor, List.filter_append]
    by_cases hb : b.unit = u ∧ b.topicId = t
    · have hempty : votes.filter (fun v => decide (v.unit = u ∧ v.topicId = t)) = [] := by
        rw [← hb.1, ← hb.2]
        exact hnone
      rw [hempty, List.nil_append]
      exact le_trans (List.length_filter_le _ _) (by simp)
    · have : List.filter (fun v => decide (v.unit = u ∧ v.topicId = t)) [b] = [] := by
        simp [hb]
      rw [this, List.append_nil]
      exact h u t

/-- C1.  For every household `h` and topic `t`, after any sequence of
cast-vote submissions reaching the storage layer (each an atomic
`INSERT ... ON CONFLICT (戶號, topic_id) DO UPDATE`, so any concurrent
interleaving is some serial order of these atomic writes), at most one
ballot row exists for the pair `(h, t)`. -/
theorem vote_sequence_at_most_one_ballot_per_pair (bs : List Ballot) :
    atMostOnePerPair (List.foldl upsertVote [] bs) := by
  have gen : ∀ (l init : List Ballot), atMostOnePerPair init →
      atMostOnePerPair (List.foldl upsertVote init l) := by
    intro l
    induction l with
    | nil => intro init h; exact h
    | cons b l ih =>
      intro init h
      exact ih _ (upsertVote_preserves init b h)
  exact gen bs [] atMostOnePerPair_nil

/-- C3, counterexample.  The claim says a later submission for the same
(household, topic) pair leaves the stored decision and timestamp unchanged;
in fact `record_vote_to_db`'s `ON CONFLICT ... DO UPDATE` overwrites both. -/
theorem repeat_submission_overwrites_ballot :
    upsertVote [⟨"A", 1, "同意", 10⟩] ⟨"A", 1, "不同意", 20⟩ =
      [⟨"A", 1, "不同意", 20⟩] ∧
    (⟨"A", 1, "不同意", 20⟩ : Ballot) ≠ ⟨"A", 1, "同意", 10⟩ := by
  decide

/-- C3, amended.  A later submission for an existing (household, topic) pair
overwrites the stored decision and timestamp (last-write-wins): after the
upsert, the ledger holds exactly one row for the pair and it carries the new
decision and the new timestamp. -/
theorem record_vote_last_write_wins (votes : List Ballot) (b : Ballot)
    (h : atMostOnePerPair votes) :
    (ballotsFor (upsertVote votes b) b.unit b.topicId).map
      (fun v => (v.result, v.time)) = [(b.result, b.time)] := by
  unfold upsertVote
  split
  · rename_i hany
    obtain ⟨v0, hv0mem, hv0k⟩ := List.any_eq_true.mp hany
    have hv0 : v0.unit = b.unit ∧ v0.topicId = b.topicId := of_decide_eq_true hv0k
    have hmapf : ballotsFor (votes.map (fun v =>
        if v.unit = b.unit ∧ v.topicId = b.topicId then
          { v with result := b.result, time := b.time } else v)) b.unit b.topicId
        = (ballotsFor votes b.unit b.topicId).map (fun v =>
        if v.unit = b.unit ∧ v.topicId = b.topicId then
          { v with result := b.result, time := b.time } else v) := by
      rw [ballotsFor, ballotsFor]
      exact filter_map_eq_map_filter_of_pred_eq _ _ (upsert_update_pred_eq b) votes
    have hmem : v0 ∈ ballotsFor votes b.unit b.topicId := by
      rw [ballotsFor, List.mem_filter]
      exact ⟨hv0mem, by simp [hv0]⟩
    have hone : (ballotsFor votes b.unit b.topicId).length = 1 :=
      le_antisymm (h b.unit b.topicId) (List.length_pos_of_mem hmem)
    obtain ⟨a, ha⟩ := List.length_eq_one.mp hone
    have hamem : a ∈ ballotsFor votes b.unit b.topicId := by
      rw [ha]
      exact List.mem_singleton_self a
    have hak : a.unit = b.unit ∧ a.topicId = b.topicId := by
      rw [ballotsFor] at hamem
      exact of_decide_eq_true (List.mem_filter.mp hamem).2
    rw [hmapf, ha]
    simp [hak]
  · rename_i hany
    have hempty : ballotsFor votes b.unit b.topicId = [] :=
      ballotsFor_eq_nil_of_not_any votes b hany
    rw [ballotsFor] at hempty ⊢
    rw [List.filter_append, hempty, List.nil_append]
    simp

/-- Witness for the amended C3 theorem at a concrete ledger. -/
theorem record_vote_last_write_wins_witness :
    atMostOnePerPair [⟨"A", 1, "同意", 10⟩] ∧
    (ballotsFor (upsertVote [⟨"A", 1, "同意", 10⟩] ⟨"A", 1, "不同意", 20⟩)
      "A" 1).map (fun v => (v.result, v.time)) = [("不同意", 20)] :=
  ⟨atMostOnePerPair_singleton _,
    record_vote_last_write_wins [⟨"A", 1, "同意", 10⟩] ⟨"A", 1, "不同意", 20⟩
      (atMostOnePerPair_singleton _)⟩

/-! ## Tally claims -/

/-- C2, counterexample.  Registry of 3 households, one single agree vote on
topic 1: the dashboard reports an agree ratio of 100% (agree divided by the
votes cast), not the claimed agree divided by total eligible households,
which would be 1/3 of 100%. -/
theorem tally_ratio_uses_votes_cast_not_total_eligible :
    (tallyTopic [⟨"A", 1, "同意", 0⟩] 3 1).ratios = some (100, 0) ∧
    ((100 : ℚ) ≠ (1 : ℚ) / 3 * 100) := by
  constructor
  · have h1 : agreeCount [⟨"A", 1, "同意", 0⟩] 1 = 1 := by decide
    have h2 : disagreeCount [⟨"A", 1, "同意", 0⟩] 1 = 0 := by decide
    simp only [tallyTopic, h1, h2]
    norm_num
  · norm_num

/-- C2, amended.  Whenever at least one vote was cast for the topic, the two
displayed ratios are agree/votes-cast and disagree/votes-cast (as
percentages), so they always sum to 100% — the denominator is the number of
votes cast, not the number of eligible households. -/
theorem tally_ratios_computed_over_votes_cast (votes : List Ballot)
    (n tid : Nat) (h : 0 < (tallyTopic votes n tid).totalVotes) :
    (tallyTopic votes n tid).ratios =
      some (((tallyTopic votes n tid).agree : ℚ) /
              ((tallyTopic votes n tid).totalVotes : ℚ) * 100,
            ((tallyTopic votes n tid).disagree : ℚ) /
              ((tallyTopic votes n tid).totalVotes : ℚ) * 100) ∧
    ((tallyTopic votes n tid).agree : ℚ) /
        ((tallyTopic votes n tid).totalVotes : ℚ) * 100 +
      ((tallyTopic votes n tid).disagree : ℚ) /
        ((tallyTopic votes n tid).totalVotes : ℚ) * 100 = 100 := by
  have htv : (tallyTopic votes n tid).totalVotes
      = agreeCount votes tid + disagreeCount votes tid := rfl
  have hagree : (tallyTopic votes n tid).agree = agreeCount votes tid := rfl
  have hdis : (tallyTopic votes n tid).disagree = disagreeCount votes tid := rfl
  rw [htv] at h
  constructor
  · show (if agreeCount votes tid + disagreeCount votes tid > 0 then
      some ((agreeCount votes tid : ℚ) /
              ((agreeCount votes tid + disagreeCount votes tid : Nat) : ℚ) * 100,
            (disagreeCount votes tid : ℚ) /
              ((agreeCount votes tid + disagreeCount votes tid : Nat) : ℚ) * 100)
      else none) = _
    rw [if_pos h, htv, hagree, hdis]
  · have hne : ((agreeCount votes tid : ℚ) + (disagreeCount votes tid : ℚ)) ≠ 0 := by
      have hpos : (0 : ℚ) < (agreeCount votes tid : ℚ) + (disagreeCount votes tid : ℚ) := by
        exact_mod_cast h
      exact hpos.ne'
    rw [htv, hagree, hdis]
    push_cast
    field_simp
    ring

/-- Witness for the amended C2 theorem: one agree and one disagree vote among
3 eligible households give ratios 50% and 50%. -/
theorem tally_ratios_computed_over_votes_cast_witness :
    0 < (tallyTopic [⟨"A", 1, "同意", 0⟩, ⟨"B", 1, "不同意", 0⟩] 3 1).totalVotes ∧
    ((tallyTopic [⟨"A", 1, "同意", 0⟩, ⟨"B", 1, "不同意", 0⟩] 3 1).ratios =
      some (((tallyTopic [⟨"A", 1, "同意", 0⟩, ⟨"B", 1, "不同意", 0⟩] 3 1).agree : ℚ) /
              ((tallyTopic [⟨"A", 1, "同意", 0⟩, ⟨"B", 1, "不同意", 0⟩] 3 1).totalVotes : ℚ) * 100,
            ((tallyTopic [⟨"A", 1, "同意", 0⟩, ⟨"B", 1, "不同意", 0⟩] 3 1).disagree : ℚ) /
              ((tallyTopic [⟨"A", 1, "同意", 0⟩, ⟨"B", 1, "不同意", 0⟩] 3 1).totalVotes : ℚ) * 100) ∧
    ((tallyTopic [⟨"A", 1, "同意", 0⟩, ⟨"B", 1, "不同意", 0⟩] 3 1).agree : ℚ) /
        ((tallyTopic [⟨"A", 1, "同意", 0⟩, ⟨"B", 1, "不同意", 0⟩] 3 1).totalVotes : ℚ) * 100 +
      ((tallyTopic [⟨"A", 1, "同意", 0⟩, ⟨"B", 1, "不同意", 0⟩] 3 1).disagree : ℚ) /
        ((tallyTopic [⟨"A", 1, "同意", 0⟩, ⟨"B", 1, "不同意", 0⟩] 3 1).totalVotes : ℚ) * 100 = 100) :=
  ⟨by decide,
    tally_ratios_computed_over_votes_cast
      [⟨"A", 1, "同意", 0⟩, ⟨"B", 1, "不同意", 0⟩] 3 1 (by decide)⟩

/-- C6, counterexample.  A topic with zero ballots yields no ratio values at
all (the dashboard prints an informational message instead); in particular
the ratios are not reported as 0 as the claim states. -/
theorem tally_zero_ballots_ratio_absent :
    (tallyTopic [] 3 1).ratios = none ∧
    (tallyTopic [] 3 1).ratios ≠ some (0, 0) := by
  decide

/-- C6, amended.  For a topic with zero ballots the tally returns all counts
0 (voted households, agree, disagree, votes cast), `remaining` equal to the
full registry size, and no ratios — the ratio branch requires at least one
vote, so no division by zero can occur and no error is raised (the function
is total). -/
theorem tally_topic_without_ballots_all_zero (votes : List Ballot)
    (n tid : Nat) (h : ∀ v ∈ votes, v.topicId ≠ tid) :
    tallyTopic votes n tid = ⟨0, (n : Int), 0, 0, 0, none⟩ := by
  have htv : topicVotes votes tid = [] := by
    rw [topicVotes, List.filter_eq_nil_iff]
    intro v hv
    simpa using h v hv
  simp [tallyTopic, agreeCount, disagreeCount, votedHouseholdCount, htv]

/-- Witness for the amended C6 theorem: one ballot on topic 2, tally of
topic 1 is all-zero with no ratios. -/
theorem tally_topic_without_ballots_all_zero_witness :
    (∀ v ∈ [(⟨"B", 2, "同意", 7⟩ : Ballot)], v.topicId ≠ 1) ∧
    tallyTopic [⟨"B", 2, "同意", 7⟩] 3 1 = ⟨0, ((3 : Nat) : Int), 0, 0, 0, none⟩ :=
  ⟨by decide, tally_topic_without_ballots_all_zero [⟨"B", 2, "同意", 7⟩] 3 1 (by decide)⟩

/-! ## Upload claims -/

/-- C4.  Evaluating the topics upload on a concrete two-row file: the stored
rows carry NO id at all (not ids 1 and 2).  `init_db_tables` created
`topics` with `id SERIAL PRIMARY KEY`, and both `voter_page` and
`admin_dashboard` subsequently read `topic_row['id']`, but
`to_sql(..., if_exists='replace')` drops that table and recreates it from
the uploaded frame's columns (議題, is_active) only, so after any upload the
reads of `id` fail. -/
theorem topics_upload_drops_id_column :
    saveTopicsToDb ⟨["議題"], [[("議題", "T1")], [("議題", "T2")]]⟩ =
      some [⟨none, "T1", true⟩, ⟨none, "T2", true⟩] := by
  decide

/-- C5, counterexample.  An upload that has the household-code column 戶號
but no ownership-share column 區分比例 is rejected (`save_households_to_db`
returns `False`), while the claim says it succeeds. -/
theorem households_upload_missing_share_rejected :
    saveHouseholdsToDb ⟨["戶號"], [[("戶號", "A1")]]⟩ = none := by
  decide

/-- C5, amended.  `save_households_to_db` rejects an upload exactly when one
of the two required columns 戶號 or 區分比例 is absent: the ownership-share
column is mandatory, not optional. -/
theorem households_upload_requires_both_columns (df : DataFrame) :
    saveHouseholdsToDb df = none ↔
      ¬ ("戶號" ∈ df.columns ∧ "區分比例" ∈ df.columns) := by
  unfold saveHouseholdsToDb
  split
  · rename_i hc
    simp [hc]
  · rename_i hc
    simp [hc]

/-- C9.  A successful household upload fully replaces the registry: the new
registry is exactly the projection of the uploaded rows (same length as the
upload), and every household in it comes from the upload — nothing from any
earlier load survives. -/
theorem load_households_full_replace (db : DB) (df : DataFrame) (db2 : DB)
    (h : loadHouseholds db df = some db2) :
    db2.households = df.rows.map (fun r =>
      ⟨(getCell r "戶號").getD "", (getCell r "區分比例").getD ""⟩) ∧
    db2.households.length = df.rows.length ∧
    ∀ hh ∈ db2.households,
      hh.code ∈ df.rows.map (fun r => (getCell r "戶號").getD "") := by
  unfold loadHouseholds saveHouseholdsToDb at h
  by_cases hc : "戶號" ∈ df.columns ∧ "區分比例" ∈ df.columns
  · rw [if_pos hc] at h
    simp only [Option.map_some', Option.some.injEq] at h
    subst h
    refine ⟨rfl, by simp, ?_⟩
    intro hh hm
    simp only [List.mem_map] at hm ⊢
    obtain ⟨r, hr, hhe⟩ := hm
    exact ⟨r, hr, by rw [← hhe]⟩
  · rw [if_neg hc] at h
    simp at h

/-- Witness for the C9 theorem at a concrete upload replacing an older
registry. -/
theorem load_households_full_replace_witness :
    loadHouseholds ⟨[⟨"OLD", "1"⟩], [], [], []⟩
        ⟨["戶號", "區分比例"],
          [[("戶號", "A"), ("區分比例", "0.5")],
           [("戶號", "B"), ("區分比例", "0.5")]]⟩ =
      some ⟨[⟨"A", "0.5"⟩, ⟨"B", "0.5"⟩], [], [], []⟩ ∧
    ((⟨[⟨"A", "0.5"⟩, ⟨"B", "0.5"⟩], [], [], []⟩ : DB).households =
      [[("戶號", "A"), ("區分比例", "0.5")],
       [("戶號", "B"), ("區分比例", "0.5")]].map (fun r =>
        ⟨(getCell r "戶號").getD "", (getCell r "區分比例").getD ""⟩) ∧
    (⟨[⟨"A", "0.5"⟩, ⟨"B", "0.5"⟩], [], [], []⟩ : DB).households.length =
      [[("戶號", "A"), ("區分比例", "0.5")],
       [("戶號", "B"), ("區分比例", "0.5")]].length ∧
    ∀ hh ∈ (⟨[⟨"A", "0.5"⟩, ⟨"B", "0.5"⟩], [], [], []⟩ : DB).households,
      hh.code ∈ [[("戶號", "A"), ("區分比例", "0.5")],
       [("戶號", "B"), ("區分比例", "0.5")]].map
        (fun r => (getCell r "戶號").getD "")) :=
  ⟨by decide,
    load_households_full_replace ⟨[⟨"OLD", "1"⟩], [], [], []⟩
      ⟨["戶號", "區分比例"],
        [[("戶號", "A"), ("區分比例", "0.5")],
         [("戶號", "B"), ("區分比例", "0.5")]]⟩
      ⟨[⟨"A", "0.5"⟩, ⟨"B", "0.5"⟩], [], [], []⟩ (by decide)⟩

/-! ## Voter-flow claims -/

/-- Dropping the `end_time` row does not change the lookup of any other
config key. -/
lemma find?_filter_ne_endTime {α : Type} (l : List (String × α)) (k : String)
    (hk : k ≠ "end_time") :
    (l.filter (fun kv => decide (kv.1 ≠ "end_time"))).find?
        (fun kv => decide (kv.1 = k)) =
      l.find? (fun kv => decide (kv.1 = k)) := by
  induction l with
  | nil => rfl
  | cons a l ih =>
    by_cases ha : a.1 = "end_time"
    · have hqa : (decide (a.1 ≠ "end_time") : Bool) = false := by simp [ha]
      have hpa : (decide (a.1 = k) : Bool) = false := by
        rw [ha]
        exact decide_eq_false fun hek => hk hek.symm
      rw [List.filter_cons, hqa]
      simp only [Bool.false_eq_true, if_false]
      rw [ih, List.find?_cons, hpa]
    · have hqa : (decide (a.1 ≠ "end_time") : Bool) = true := by simp [ha]
      rw [List.filter_cons, hqa, if_pos rfl]
      rw [List.find?_cons, List.find?_cons]
      cases hpa : (decide (a.1 = k) : Bool)
      · exact ih
      · rfl

lemma loadConfig_eraseEndTime_other (db : DB) (k : String) (hk : k ≠ "end_time") :
    loadConfig (eraseEndTime db) k = loadConfig db k := by
  unfold loadConfig eraseEndTime
  rw [find?_filter_ne_endTime db.config k hk]

lemma loadConfig_eraseEndTime_none (db : DB) :
    loadConfig (eraseEndTime db) "end_time" = none := by
  unfold loadConfig eraseEndTime
  rw [List.find?_eq_none.mpr, Option.map_none']
  intro kv hkv
  simp only [List.mem_filter, decide_eq_true_eq] at hkv
  simp [hkv.2]

/-- C7.  A submission carrying a household code absent from the current
registry is rejected as an invalid household and changes no state — and this
holds for every database state, so in particular for any value of the
voting gate and deadline: the registry check comes before the gate check. -/
theorem cast_vote_unregistered_invalid_household (db : DB) (now : Int)
    (unit : String) (tid : Nat) (decision : String)
    (hu : unit ≠ "") (hreg : ∀ hh ∈ db.households, hh.code ≠ unit) :
    castVote db now unit tid decision = (VoteOutcome.invalidHousehold, db.votes) := by
  unfold castVote
  have hno : ¬ ∃ hh ∈ db.households, hh.code = unit := by
    rintro ⟨hh, hm, he⟩
    exact hreg hh hm he
  rw [if_neg hu, if_pos (Or.inr hno)]

/-- Witness for the C7 theorem: unregistered code "Z", voting gate CLOSED —
still rejected as invalid household, votes unchanged. -/
theorem cast_vote_unregistered_invalid_household_witness :
    ("Z" : String) ≠ "" ∧
    (∀ hh ∈ [(⟨"A", "1.0"⟩ : Household)], hh.code ≠ "Z") ∧
    castVote ⟨[⟨"A", "1.0"⟩], [⟨some 1, "T", true⟩], [],
        [("voting_open", "False")]⟩ 0 "Z" 1 "同意" =
      (VoteOutcome.invalidHousehold, []) :=
  ⟨by decide, by decide,
    cast_vote_unregistered_invalid_household
      ⟨[⟨"A", "1.0"⟩], [⟨some 1, "T", true⟩], [], [("voting_open", "False")]⟩
      0 "Z" 1 "同意" (by decide) (by decide)⟩

/-- C8.  When the registry check passes and the gate is still marked open
but the stored deadline parses to an instant earlier than the current time,
the submission is rejected as deadline-expired and no state changes: the
deadline check applies in addition to the open flag. -/
theorem cast_vote_past_deadline_rejected (db : DB) (now : Int)
    (unit : String) (tid : Nat) (decision : String) {s : String} {endT : Int}
    (hu : unit ≠ "") (hreg : ∃ hh ∈ db.households, hh.code = unit)
    (hopen : loadConfig db "voting_open" = some "True")
    (hend : loadConfig db "end_time" = some s)
    (hparse : parseTs s = some endT) (hlate : now > endT) :
    castVote db now unit tid decision = (VoteOutcome.deadlineExpired, db.votes) := by
  unfold castVote
  have hne : ¬ (db.households = [] ∨ ¬ ∃ hh ∈ db.households, hh.code = unit) := by
    push_neg
    refine ⟨?_, hreg⟩
    obtain ⟨hh, hm, _⟩ := hreg
    intro heq
    rw [heq] at hm
    exact absurd hm (List.not_mem_nil hh)
  rw [if_neg hu, if_neg hne, if_neg (not_not_intro hopen)]
  simp only [hend, hparse]
  rw [if_pos (decide_eq_true hlate)]

/-- Witness for the C8 theorem: at a time after the stored deadline, the
submission of registered household "A" is rejected as deadline-expired even
though the gate is open. -/
theorem cast_vote_past_deadline_rejected_witness :
    ("A" : String) ≠ "" ∧
    (∃ hh ∈ pastDeadlineDb.households, hh.code = "A") ∧
    loadConfig pastDeadlineDb "voting_open" = some "True" ∧
    loadConfig pastDeadlineDb "end_time" = some "2020-01-01 00:00:00 +0800" ∧
    parseTs "2020-01-01 00:00:00 +0800" = some 64927152000 ∧
    ((64927152001 : Int) > 64927152000) ∧
    castVote pastDeadlineDb 64927152001 "A" 1 "同意" =
      (VoteOutcome.deadlineExpired, []) :=
  ⟨by decide, by decide, by decide, by decide, by decide, by decide,
    cast_vote_past_deadline_rejected pastDeadlineDb 64927152001 "A" 1 "同意"
      (by decide) (by decide) (by decide)
      (show loadConfig pastDeadlineDb "end_time"
        = some "2020-01-01 00:00:00 +0800" by decide)
      (show parseTs "2020-01-01 00:00:00 +0800" = some 64927152000 by decide)
      (by decide)⟩

/-- C10.  When a stored deadline exists but does not parse, the bare
`except: pass` silently skips the deadline check: the whole submission
behaves exactly as it would against the same database with no `end_time`
row at all — same outcome, same resulting votes table, so a vote can be
accepted past the intended deadline. -/
theorem cast_vote_unparseable_deadline_ignored (db : DB) (now : Int)
    (unit : String) (tid : Nat) (decision : String) {s : String}
    (hend : loadConfig db "end_time" = some s) (hparse : parseTs s = none) :
    castVote db now unit tid decision =
      castVote (eraseEndTime db) now unit tid decision := by
  unfold castVote
  have h1 : (eraseEndTime db).households = db.households := rfl
  have h2 : (eraseEndTime db).topics = db.topics := rfl
  have h3 : (eraseEndTime db).votes = db.votes := rfl
  have h4 : loadConfig (eraseEndTime db) "voting_open" = loadConfig db "voting_open" :=
    loadConfig_eraseEndTime_other db "voting_open" (by decide)
  have h5 : loadConfig (eraseEndTime db) "end_time" = none :=
    loadConfig_eraseEndTime_none db
  simp only [h1, h2, h3, h4, h5, hend, hparse]

/-- Witness for the C10 theorem: with the unparseable deadline "oops" the
submission runs exactly as if no deadline were stored (and is accepted). -/
theorem cast_vote_unparseable_deadline_ignored_witness :
    loadConfig badDeadlineDb "end_time" = some "oops" ∧
    parseTs "oops" = none ∧
    castVote badDeadlineDb 5 "A" 1 "同意" =
      castVote (eraseEndTime badDeadlineDb) 5 "A" 1 "同意" :=
  ⟨by decide, by decide,
    cast_vote_unparseable_deadline_ignored badDeadlineDb 5 "A" 1 "同意"
      (show loadConfig badDeadlineDb "end_time" = some "oops" by decide)
      (by decide)⟩
